import Mathlib

/-!
Shallow embedding of the kmt2es importer (`src/kmt2es/kmt2es/main.py`):
the coordinate enrichment pipeline (`_transform_coordinates`), the
index-name formatting (Python `str.format` restricted to the keyword
placeholders the program uses), the haversine distance of the external
`mpu` library, and the per-tour orchestration (`_send_to_elasticsearch`)
modelled as a trace of effects.  Numeric JSON values are modelled as
rationals; Python float arithmetic is idealised over the real numbers.
-/

/-- Raw coordinate sample as delivered by the coordinates endpoint:
time offset `t` since tour start, latitude, longitude, altitude. -/
structure RawSample where
  t : ℚ
  lat : ℚ
  lng : ℚ
  alt : ℚ
deriving DecidableEq

/-- Payload of the coordinates endpoint (the `items` list of the JSON
body returned by `_request_coordinates`). -/
structure Coordinates where
  items : List RawSample

/-- Result of `iso8601.parse_date` (external library), modelled
abstractly: the calendar fields the program reads, plus the instant as
microseconds since an arbitrary epoch, so that the Python expression
`dt + timedelta(microseconds=u)` becomes addition on `epoch_us`. -/
structure DateTime where
  year : Nat
  month : Nat
  day : Nat
  epoch_us : ℚ

/-- Tour metadata entry of the tour listing; only the fields the
pipeline reads are modelled, with `date` kept in parsed form (the code
parses the ISO-8601 `date` string with `iso8601.parse_date`). -/
structure Tour where
  id : String
  type : String
  sport : String
  date : DateTime

/-- CLI configuration fields consumed by the modelled core: the two
index-name templates. -/
structure CliArgs where
  es_index_format_tour : String
  es_index_format_coordinates : String

/-- Keyword-argument lookup for the modelled `str.format`. -/
def lookupVal : List (String × Nat) → String → Option Nat
  | [], _ => none
  | (k, v) :: rest, name => if k = name then some v else lookupVal rest name

/-- Zero-pad a numeral string to the given width, as Python's `0Nd`
format spec does for nonnegative integers. -/
def padZero (w : Nat) (s : String) : String :=
  if s.length < w then String.mk (List.replicate (w - s.length) '0') ++ s else s

/-- Format one integer value under a format spec.  The program's
templates use either no spec, an empty spec, or `02d`; anything else is
a formatting error (modelled as `none`). -/
def formatField (v : Nat) (spec : String) : Option String :=
  if spec = "" ∨ spec = "d" then some (toString v)
  else if spec = "02d" then some (padZero 2 (toString v))
  else none

/-- Substitute one `name` or `name:spec` replacement field. -/
def substField (vals : List (String × Nat)) (field : List Char) : Option (List Char) :=
  let nameCs := field.takeWhile (fun ch => ch ≠ ':')
  let restCs := field.dropWhile (fun ch => ch ≠ ':')
  let specCs : List Char :=
    match restCs with
    | [] => []
    | _ :: r => r
  match lookupVal vals (String.mk nameCs) with
  | none => none
  | some v =>
    match formatField v (String.mk specCs) with
    | none => none
    | some s => some s.data

/-- Scanner of the modelled Python `str.format`: `mode = none` scans
literal text, `mode = some acc` is inside a replacement field with `acc`
holding the field text read so far.  Returns `none` where Python raises
(unknown keyword, unsupported spec, unbalanced braces). -/
def pyFormatAux (vals : List (String × Nat)) : Option (List Char) → List Char → Option (List Char)
  | none, [] => some []
  | some _, [] => none
  | none, '\x7b' :: '\x7b' :: rest => (pyFormatAux vals none rest).map (fun out => '\x7b' :: out)
  | none, '\x7b' :: rest => pyFormatAux vals (some []) rest
  | none, '\x7d' :: '\x7d' :: rest => (pyFormatAux vals none rest).map (fun out => '\x7d' :: out)
  | none, '\x7d' :: _ => none
  | none, ch :: rest => (pyFormatAux vals none rest).map (fun out => ch :: out)
  | some acc, ch :: rest =>
    if ch = '\x7d' then
      match substField vals acc with
      | none => none
      | some s => (pyFormatAux vals none rest).map (fun out => s ++ out)
    else pyFormatAux vals (some (acc ++ [ch])) rest

/-- Modelled Python `str.format` over the keyword calls the program
makes. -/
def pyFormat (tmpl : String) (vals : List (String × Nat)) : Option String :=
  (pyFormatAux vals none tmpl.data).map String.mk

/-- Index-name routing as performed at the call sites of the program
(`template.format(year=..., month=..., day=...)`). -/
def route (tmpl : String) (year month day : Nat) : Option String :=
  pyFormat tmpl [("year", year), ("month", month), ("day", day)]

/-- Default tour-index template of the CLI (`es_index_tour_default`). -/
def es_index_tour_default : String := "komoot-tour-\x7byear:02d\x7d-\x7bmonth:02d\x7d"

/-- Default coordinates-index template of the CLI
(`es_index_coordinates_default`). -/
def es_index_coordinates_default : String := "komoot-coordinates-\x7byear:02d\x7d-\x7bmonth:02d\x7d"

/-- Degrees to radians, as Python's `math.radians`. -/
noncomputable def radians (x : ℝ) : ℝ := x * Real.pi / 180

/-- Two-argument arctangent, as Python's `math.atan2` (real
idealisation; signed zeros collapse onto the plain zero cases). -/
noncomputable def atan2 (y x : ℝ) : ℝ :=
  if 0 < x then Real.arctan (y / x)
  else if x < 0 ∧ 0 ≤ y then Real.arctan (y / x) + Real.pi
  else if x < 0 then Real.arctan (y / x) - Real.pi
  else if x = 0 ∧ 0 < y then Real.pi / 2
  else if x = 0 ∧ y < 0 then -(Real.pi / 2)
  else 0

/-- Haversine great-circle distance of the external `mpu` library
(`mpu.haversine_distance`), the function `_transform_coordinates` calls:
spherical earth of radius 6371 km, result in kilometres.  Arguments are
`(lat, lng)` pairs in degrees.  The library's input validation
(latitudes in [-90, 90], longitudes in [-180, 180], `ValueError`
otherwise) is not modelled; the pipeline only feeds it coordinates taken
from the source API. -/
noncomputable def haversine_distance (origin destination : ℝ × ℝ) : ℝ :=
  let lat1 := origin.1
  let lat2 := destination.1
  let radius : ℝ := 6371
  let dlat := radians (lat2 - lat1)
  let dlon := radians (destination.2 - origin.2)
  let a := Real.sin (dlat / 2) * Real.sin (dlat / 2) +
    Real.cos (radians lat1) * Real.cos (radians lat2) *
      (Real.sin (dlon / 2) * Real.sin (dlon / 2))
  radius * (2 * atan2 (Real.sqrt a) (Real.sqrt (1 - a)))

/-- Modelled from the spec: `GeoKinematics.distance(pointA, pointB) ->
meters`, the great-circle haversine distance in metres on a spherical
earth of mean radius 6371 km, i.e. 6371000 m. -/
noncomputable def spec_haversine_meters (origin destination : ℝ × ℝ) : ℝ :=
  let lat1 := origin.1
  let lat2 := destination.1
  let radius : ℝ := 6371000
  let dlat := radians (lat2 - lat1)
  let dlon := radians (destination.2 - origin.2)
  let a := Real.sin (dlat / 2) * Real.sin (dlat / 2) +
    Real.cos (radians lat1) * Real.cos (radians lat2) *
      (Real.sin (dlon / 2) * Real.sin (dlon / 2))
  radius * (2 * atan2 (Real.sqrt a) (Real.sqrt (1 - a)))

/-- One bulk row built by `_transform_coordinates`.  `es_index`,
`es_type`, `es_id` model the `_index`, `_type`, `_id` keys of the Python
dict; `date_us` is the instant `dt_start + delta` as microseconds since
the model epoch (the `isoformat()` rendering is not modelled);
`es_index` is the result of the fallible template formatting. -/
structure Row where
  es_index : Option String
  es_type : String
  es_id : String
  tour_id : String
  date_us : ℚ
  lat : ℚ
  lng : ℚ
  geopoint : ℚ × ℚ
  distance : ℝ
  speed : ℝ
  alt : ℚ
  sport : String

/-- Default row used with `List.getD` when stating positional facts. -/
def dRow : Row :=
  { es_index := none, es_type := "", es_id := "", tour_id := "", date_us := 0,
    lat := 0, lng := 0, geopoint := (0, 0), distance := 0, speed := 0,
    alt := 0, sport := "" }

/-- Default sample used with `List.getD`. -/
def dSample : RawSample := { t := 0, lat := 0, lng := 0, alt := 0 }

/-- Body of the `for` loop of `_transform_coordinates`: builds the bulk
row for sample `row` at position `i`, given the previous sample. -/
noncomputable def mkRow (dt_start : DateTime) (tour_id tour_sport : String)
    (args : CliArgs) (prev_row : Option RawSample) (i : Nat) (row : RawSample) : Row :=
  let delta_us : ℚ := row.t * 1000
  let distance : ℝ :=
    match prev_row with
    | none => 0
    | some p => haversine_distance ((p.lat : ℝ), (p.lng : ℝ)) ((row.lat : ℝ), (row.lng : ℝ))
  let time_delta_in_s : ℚ :=
    match prev_row with
    | none => 0
    | some p => (row.t - p.t) / 1000
  let speed : ℝ :=
    if prev_row = none ∨ time_delta_in_s = 0 then 0
    else distance / (time_delta_in_s : ℝ)
  { es_index := pyFormat args.es_index_format_coordinates
      [("year", dt_start.year), ("month", dt_start.month)]
  , es_type := "coordinate"
  , es_id := tour_id ++ "_" ++ toString i
  , tour_id := tour_id
  , date_us := dt_start.epoch_us + delta_us
  , lat := row.lat
  , lng := row.lng
  , geopoint := (row.lng, row.lat)
  , distance := distance
  , speed := speed
  , alt := row.alt
  , sport := tour_sport }

/-- The `for` loop of `_transform_coordinates` over the remaining
items, carrying `prev_row` and the running enumeration index. -/
noncomputable def transformLoop (dt_start : DateTime) (tour_id tour_sport : String)
    (args : CliArgs) : Option RawSample → Nat → List RawSample → List Row
  | _, _, [] => []
  | prev, i, row :: rest =>
    mkRow dt_start tour_id tour_sport args prev i row ::
      transformLoop dt_start tour_id tour_sport args (some row) (i + 1) rest

/-- `_transform_coordinates`: one bulk row per input sample, in input
order.  The `start_date` string argument of the Python function is
modelled in already-parsed form. -/
noncomputable def _transform_coordinates (coordinates : Coordinates) (dt_start : DateTime)
    (tour_id tour_sport : String) (args : CliArgs) : List Row :=
  transformLoop dt_start tour_id tour_sport args none 0 coordinates.items

/-- Observable side effects of the per-tour pipeline. -/
inductive Effect where
  | createIndex (index : Option String) (withMapping : Bool)
  | indexDoc (index : Option String) (doc_id : String)
  | fetchCoordinates (tour_id : String)
  | bulkIndex (rows : List Row)
  | logImported (tour_id : String)

/-- `_create_elasticsearch_index`: create the tour index and the
coordinates index (the latter with the geopoint mapping), both names
formatted with year, month and day of the tour start. -/
def _create_elasticsearch_index (dt : DateTime) (args : CliArgs) : List Effect :=
  [Effect.createIndex (route args.es_index_format_tour dt.year dt.month dt.day) false,
   Effect.createIndex (route args.es_index_format_coordinates dt.year dt.month dt.day) true]

/-- `_send_to_elasticsearch`, modelled as the trace of effects it
performs together with the first uncaught fetch error: a tour whose
`type` is not `tour_recorded` is skipped before any effect; otherwise
the indices are created, the metadata document is written, the
coordinates are fetched (a failure raises `RuntimeError`, aborting the
loop), the transformed rows are bulk-written and the import is logged. -/
noncomputable def _send_to_elasticsearch (fetch : String → Except String Coordinates)
    (args : CliArgs) : List Tour → List Effect × Option String
  | [] => ([], none)
  | t :: rest =>
    if t.type ≠ "tour_recorded" then _send_to_elasticsearch fetch args rest
    else
      let pre := _create_elasticsearch_index t.date args ++
        [Effect.indexDoc (route args.es_index_format_tour t.date.year t.date.month t.date.day) t.id,
         Effect.fetchCoordinates t.id]
      match fetch t.id with
      | Except.error e => (pre, some e)
      | Except.ok coords =>
        let rows := _transform_coordinates coords t.date t.id t.sport args
        let res := _send_to_elasticsearch fetch args rest
        (pre ++ [Effect.bulkIndex rows, Effect.logImported t.id] ++ res.1, res.2)

/-- Tour ids whose import completed, i.e. reached the
`Imported tour id ...` log line. -/
def importedIds (effects : List Effect) : List String :=
  effects.filterMap fun e =>
    match e with
    | Effect.logImported tid => some tid
    | _ => none

/-- Concrete sample at the origin, tour start. -/
def s0 : RawSample := { t := 0, lat := 0, lng := 0, alt := 0 }

/-- Concrete sample one degree of longitude east, two seconds later. -/
def s1 : RawSample := { t := 2000, lat := 0, lng := 1, alt := 0 }

/-- Concrete two-sample coordinate stream. -/
def cEx : Coordinates := { items := [s0, s1] }

/-- Concrete coordinate stream whose two samples carry the same time
offset but different positions. -/
def cEqT : Coordinates :=
  { items := [{ t := 500, lat := 0, lng := 0, alt := 0 },
              { t := 500, lat := 3, lng := 4, alt := 0 }] }

/-- Concrete tour start date. -/
def dtEx : DateTime := { year := 2023, month := 7, day := 15, epoch_us := 0 }

/-- Concrete CLI configuration using the default templates. -/
def argsEx : CliArgs :=
  { es_index_format_tour := es_index_tour_default,
    es_index_format_coordinates := es_index_coordinates_default }

/-- Concrete recorded tour whose coordinate fetch will fail. -/
def tourA : Tour := { id := "tourA", type := "tour_recorded", sport := "hiking", date := dtEx }

/-- Concrete recorded tour whose coordinate fetch would succeed. -/
def tourB : Tour := { id := "tourB", type := "tour_recorded", sport := "hiking", date := dtEx }

/-- Concrete planned (non-recorded) tour. -/
def tourPlanned : Tour :=
  { id := "tourP", type := "tour_planned", sport := "hiking", date := dtEx }

/-- Concrete fetcher: HTTP 500 for `tourA`, an empty stream otherwise. -/
def fetchEx : String → Except String Coordinates := fun tid =>
  if tid = "tourA" then Except.error "Request failed with status code 500."
  else Except.ok { items := [] }

/-- The loop emits exactly one row per remaining item. -/
theorem transformLoop_length (dt : DateTime) (tid sp : String) (a : CliArgs) :
    ∀ (items : List RawSample) (prev : Option RawSample) (i : Nat),
      (transformLoop dt tid sp a prev i items).length = items.length := by
  intro items
  induction items with
  | nil => intro prev i; simp [transformLoop]
  | cons r rest ih => intro prev i; simp [transformLoop, ih (some r) (i + 1)]

/-- Positional characterisation of the loop: the row at position `j`
is built from the item at position `j`, with the item at position
`j - 1` (or the incoming `prev` at position 0) as its predecessor and
enumeration index `i + j`. -/
theorem transformLoop_getD (dt : DateTime) (tid sp : String) (a : CliArgs) :
    ∀ (items : List RawSample) (prev : Option RawSample) (i j : Nat), j < items.length →
      (transformLoop dt tid sp a prev i items).getD j dRow =
        mkRow dt tid sp a (if j = 0 then prev else some (items.getD (j - 1) dSample)) (i + j)
          (items.getD j dSample) := by
  intro items
  induction items with
  | nil => intro prev i j h; simp at h
  | cons r rest ih =>
    intro prev i j h
    cases j with
    | zero => simp [transformLoop]
    | succ k =>
      have hk : k < rest.length := by simpa using h
      simp only [transformLoop, List.getD_cons_succ]
      rw [ih (some r) (i + 1) k hk]
      have harith : i + 1 + k = i + (k + 1) := by omega
      rw [harith]
      cases k with
      | zero => simp
      | succ m => simp

/-- `_transform_coordinates` emits one row per sample. -/
theorem transform_length (c : Coordinates) (s : DateTime) (tid sp : String) (a : CliArgs) :
    (_transform_coordinates c s tid sp a).length = c.items.length :=
  transformLoop_length s tid sp a c.items none 0

/-- Positional characterisation of `_transform_coordinates`. -/
theorem transform_getD (c : Coordinates) (s : DateTime) (tid sp : String) (a : CliArgs)
    (j : Nat) (h : j < c.items.length) :
    (_transform_coordinates c s tid sp a).getD j dRow =
      mkRow s tid sp a (if j = 0 then none else some (c.items.getD (j - 1) dSample)) j
        (c.items.getD j dSample) := by
  have := transformLoop_getD s tid sp a c.items none 0 j h
  simpa [_transform_coordinates] using this

/-- The `_id` values emitted by the loop are
`tour_id ++ "_" ++ <enumeration index>`. -/
theorem transformLoop_map_id (dt : DateTime) (tid sp : String) (a : CliArgs) :
    ∀ (items : List RawSample) (prev : Option RawSample) (i : Nat),
      (transformLoop dt tid sp a prev i items).map Row.es_id
        = (List.range items.length).map (fun j => tid ++ "_" ++ toString (i + j)) := by
  intro items
  induction items with
  | nil => intro prev i; simp [transformLoop]
  | cons r rest ih =>
    intro prev i
    simp only [transformLoop, List.map_cons, List.length_cons]
    rw [List.range_succ_eq_map, List.map_cons, List.map_map]
    congr 1
    rw [ih (some r) (i + 1)]
    apply List.map_congr_left
    intro j _
    simp only [Function.comp_apply]
    congr 2
    omega

/-- C2: for every sample at index i, the enriched point's absolute
timestamp equals the tour start timestamp plus the raw offset
`samples[i].t` taken as microseconds and multiplied by 1000, i.e. the
offset is added as `t` milliseconds, exactly as the source's
`timedelta(microseconds=row['t']) * 1000` does. -/
theorem C2_absolute_timestamp :
    ∀ (c : Coordinates) (s : DateTime) (tid sp : String) (a : CliArgs) (i : Nat),
      i < c.items.length →
      ((_transform_coordinates c s tid sp a).getD i dRow).date_us
        = s.epoch_us + (c.items.getD i dSample).t * 1000 := by
  intro c s tid sp a i h
  rw [transform_getD c s tid sp a i h]
  simp [mkRow]

/-- Witness for C2 at a concrete input. -/
theorem C2_witness : 1 < cEx.items.length ∧
    ((_transform_coordinates cEx dtEx "t1" "hiking" argsEx).getD 1 dRow).date_us
      = dtEx.epoch_us + (cEx.items.getD 1 dSample).t * 1000 :=
  ⟨by decide, C2_absolute_timestamp cEx dtEx "t1" "hiking" argsEx 1 (by decide)⟩

/-- C5: the document key of every enriched point is
`<tour_id>_<sequence index>`, a deterministic function of the tour id
and the position only: two runs over the same stream, whatever the
start date, sport or configuration, produce the same key list. -/
theorem C5_keys_deterministic :
    ∀ (c : Coordinates) (tid : String) (s1 : DateTime) (sp1 : String) (a1 : CliArgs)
      (s2 : DateTime) (sp2 : String) (a2 : CliArgs),
      (_transform_coordinates c s1 tid sp1 a1).map Row.es_id
        = (_transform_coordinates c s2 tid sp2 a2).map Row.es_id ∧
      (_transform_coordinates c s1 tid sp1 a1).map Row.es_id
        = (List.range c.items.length).map (fun i => tid ++ "_" ++ toString i) := by
  intro c tid s1 sp1 a1 s2 sp2 a2
  have h1 := transformLoop_map_id s1 tid sp1 a1 c.items none 0
  have h2 := transformLoop_map_id s2 tid sp2 a2 c.items none 0
  constructor
  · simpa [_transform_coordinates] using h1.trans h2.symm
  · simpa [_transform_coordinates] using h1

/-- C6: whenever two consecutive samples carry the same time offset,
the enriched point's speed is exactly 0, even though the distance may
be nonzero: the division is guarded by `time_delta_in_s == 0.0`. -/
theorem C6_zero_elapsed_speed :
    ∀ (c : Coordinates) (s : DateTime) (tid sp : String) (a : CliArgs) (i : Nat),
      1 ≤ i → i < c.items.length →
      (c.items.getD i dSample).t = (c.items.getD (i - 1) dSample).t →
      ((_transform_coordinates c s tid sp a).getD i dRow).speed = 0 := by
  intro c s tid sp a i h1 h2 ht
  rw [transform_getD c s tid sp a i h2]
  have hi0 : i ≠ 0 := by omega
  rw [if_neg hi0]
  revert ht
  generalize c.items.getD i dSample = ri
  generalize c.items.getD (i - 1) dSample = rp
  intro ht
  simp [mkRow, ht]

/-- Witness for C6 at a concrete input: two samples at the same `t`
but 555 km apart still give speed 0. -/
theorem C6_witness : 1 ≤ 1 ∧ 1 < cEqT.items.length ∧
    (cEqT.items.getD 1 dSample).t = (cEqT.items.getD (1 - 1) dSample).t ∧
    ((_transform_coordinates cEqT dtEx "t1" "hiking" argsEx).getD 1 dRow).speed = 0 :=
  ⟨by decide, by decide, by decide,
   C6_zero_elapsed_speed cEqT dtEx "t1" "hiking" argsEx 1 (by decide) (by decide) (by decide)⟩

/-- C7: for every non-empty stream the first enriched point has
distance 0 and speed 0, whatever its coordinates, altitude or offset. -/
theorem C7_first_point :
    ∀ (c : Coordinates) (s : DateTime) (tid sp : String) (a : CliArgs),
      c.items ≠ [] →
      ((_transform_coordinates c s tid sp a).getD 0 dRow).distance = 0 ∧
      ((_transform_coordinates c s tid sp a).getD 0 dRow).speed = 0 := by
  intro c s tid sp a h
  have hl : 0 < c.items.length := List.length_pos.2 h
  rw [transform_getD c s tid sp a 0 hl]
  constructor <;> simp [mkRow]

/-- Witness for C7 at a concrete input. -/
theorem C7_witness : cEx.items ≠ [] ∧
    ((_transform_coordinates cEx dtEx "t1" "hiking" argsEx).getD 0 dRow).distance = 0 ∧
    ((_transform_coordinates cEx dtEx "t1" "hiking" argsEx).getD 0 dRow).speed = 0 :=
  ⟨by decide, C7_first_point cEx dtEx "t1" "hiking" argsEx (by decide)⟩

/-- C8: enrichment returns exactly one row per input sample, in input
order: the row at position i carries the coordinates, altitude and
sequence key of the sample at position i. -/
theorem C8_length_order :
    ∀ (c : Coordinates) (s : DateTime) (tid sp : String) (a : CliArgs),
      (_transform_coordinates c s tid sp a).length = c.items.length ∧
      ∀ i, i < c.items.length →
        ((_transform_coordinates c s tid sp a).getD i dRow).lat
            = (c.items.getD i dSample).lat ∧
        ((_transform_coordinates c s tid sp a).getD i dRow).lng
            = (c.items.getD i dSample).lng ∧
        ((_transform_coordinates c s tid sp a).getD i dRow).alt
            = (c.items.getD i dSample).alt ∧
        ((_transform_coordinates c s tid sp a).getD i dRow).es_id
            = tid ++ "_" ++ toString i := by
  intro c s tid sp a
  refine ⟨transform_length c s tid sp a, ?_⟩
  intro i h
  rw [transform_getD c s tid sp a i h]
  refine ⟨by simp [mkRow], by simp [mkRow], by simp [mkRow], by simp [mkRow]⟩

/-- Witness for C8 at a concrete input. -/
theorem C8_witness :
    (_transform_coordinates cEx dtEx "t1" "hiking" argsEx).length = cEx.items.length ∧
    ((_transform_coordinates cEx dtEx "t1" "hiking" argsEx).getD 1 dRow).lat
      = (cEx.items.getD 1 dSample).lat :=
  ⟨(C8_length_order cEx dtEx "t1" "hiking" argsEx).1,
   ((C8_length_order cEx dtEx "t1" "hiking" argsEx).2 1 (by decide)).1⟩

/-- C10: every row of a tour gets the same destination index name,
formatted from the template with only the start date's year and month
supplied (no day keyword), so a point's own timestamp never influences
its index. -/
theorem C10_index_uniform :
    ∀ (c : Coordinates) (s : DateTime) (tid sp : String) (a : CliArgs) (i j : Nat),
      i < c.items.length → j < c.items.length →
      ((_transform_coordinates c s tid sp a).getD i dRow).es_index
          = pyFormat a.es_index_format_coordinates [("year", s.year), ("month", s.month)] ∧
      ((_transform_coordinates c s tid sp a).getD i dRow).es_index
          = ((_transform_coordinates c s tid sp a).getD j dRow).es_index := by
  intro c s tid sp a i j hi hj
  rw [transform_getD c s tid sp a i hi, transform_getD c s tid sp a j hj]
  exact ⟨by simp [mkRow], by simp [mkRow]⟩

/-- Witness for C10 at a concrete input: both rows of the two-sample
stream share the index computed from year and month of the start. -/
theorem C10_witness : 0 < cEx.items.length ∧ 1 < cEx.items.length ∧
    ((_transform_coordinates cEx dtEx "t1" "hiking" argsEx).getD 0 dRow).es_index
      = pyFormat argsEx.es_index_format_coordinates
          [("year", dtEx.year), ("month", dtEx.month)] ∧
    ((_transform_coordinates cEx dtEx "t1" "hiking" argsEx).getD 0 dRow).es_index
      = ((_transform_coordinates cEx dtEx "t1" "hiking" argsEx).getD 1 dRow).es_index :=
  ⟨by decide, by decide, C10_index_uniform cEx dtEx "t1" "hiking" argsEx 0 1 (by decide) (by decide)⟩

/-- C9: a tour whose type is not `tour_recorded` is skipped before any
effect: processing a batch starting with such a tour performs exactly
the effects of the remaining batch — no index creation, no write, no
fetch for the skipped tour. -/
theorem C9_skip_non_recorded :
    ∀ (fetch : String → Except String Coordinates) (args : CliArgs) (t : Tour)
      (rest : List Tour),
      t.type ≠ "tour_recorded" →
      _send_to_elasticsearch fetch args (t :: rest) = _send_to_elasticsearch fetch args rest := by
  intro fetch args t rest h
  simp [_send_to_elasticsearch, h]

/-- Witness for C9 at a concrete input: a planned tour alone produces
the empty trace. -/
theorem C9_witness : tourPlanned.type ≠ "tour_recorded" ∧
    _send_to_elasticsearch fetchEx argsEx [tourPlanned]
      = _send_to_elasticsearch fetchEx argsEx [] :=
  ⟨by decide, C9_skip_non_recorded fetchEx argsEx tourPlanned [] (by decide)⟩

/-- C3 counterexample: with a recorded tour whose coordinate fetch
fails followed by a healthy recorded tour, the run does not continue to
the next tour — nothing at all is imported and the error propagates,
refuting the claim that the batch carries on past the failed tour. -/
theorem C3_counterexample :
    (_send_to_elasticsearch fetchEx argsEx [tourA, tourB]).2
        = some "Request failed with status code 500." ∧
    importedIds (_send_to_elasticsearch fetchEx argsEx [tourA, tourB]).1 = [] := by
  constructor <;>
    simp [_send_to_elasticsearch, fetchEx, tourA, tourB, importedIds,
      _create_elasticsearch_index]

/-- C3 amended: an HTTP-level failure of the per-tour coordinate fetch
aborts that tour's import and the whole batch: the failing tour
contributes only its two index creations, its metadata write and the
fetch attempt — no bulk write, no import log — and no subsequent tour
is processed, so the imported count excludes the failed tour and every
tour after it. -/
theorem C3_amended_abort :
    ∀ (fetch : String → Except String Coordinates) (args : CliArgs) (t : Tour)
      (rest : List Tour) (e : String),
      t.type = "tour_recorded" → fetch t.id = Except.error e →
      _send_to_elasticsearch fetch args (t :: rest)
        = (_create_elasticsearch_index t.date args ++
            [Effect.indexDoc
              (route args.es_index_format_tour t.date.year t.date.month t.date.day) t.id,
             Effect.fetchCoordinates t.id], some e) := by
  intro fetch args t rest e htype hfetch
  simp [_send_to_elasticsearch, htype, hfetch]

/-- Witness for the amended C3 at a concrete input. -/
theorem C3_witness : tourA.type = "tour_recorded" ∧
    fetchEx tourA.id = Except.error "Request failed with status code 500." ∧
    _send_to_elasticsearch fetchEx argsEx [tourA, tourB]
      = (_create_elasticsearch_index tourA.date argsEx ++
          [Effect.indexDoc
            (route argsEx.es_index_format_tour tourA.date.year tourA.date.month tourA.date.day)
            tourA.id,
           Effect.fetchCoordinates tourA.id], some "Request failed with status code 500.") :=
  ⟨rfl, rfl,
   C3_amended_abort fetchEx argsEx tourA [tourB] "Request failed with status code 500." rfl rfl⟩

/-- C4 counterexample: Python's `str.format` does not zero-pad a bare
placeholder, so routing the template `idx-(year)-(month)` (braces in
place of the parentheses) with month 7 does not give `idx-2023-07`. -/
theorem C4_counterexample :
    route "idx-\x7byear\x7d-\x7bmonth\x7d" 2023 7 15 ≠ some "idx-2023-07" := by decide

/-- C4 amended: zero-padding of single-digit months comes from the
`02d` format specs present in the default templates, not from bare
placeholder substitution: the default-style template yields
`idx-2023-07`, while the bare template yields `idx-2023-7`. -/
theorem C4_amended_route :
    route "idx-\x7byear:02d\x7d-\x7bmonth:02d\x7d" 2023 7 15 = some "idx-2023-07" ∧
    route "idx-\x7byear\x7d-\x7bmonth\x7d" 2023 7 15 = some "idx-2023-7" := by
  exact ⟨by decide, by decide⟩

/-- The spec's metres-valued haversine is exactly 1000 times the
kilometres-valued haversine the code computes. -/
theorem spec_haversine_meters_eq (origin destination : ℝ × ℝ) :
    spec_haversine_meters origin destination = 1000 * haversine_distance origin destination := by
  simp only [spec_haversine_meters, haversine_distance]
  ring

/-- Evaluation of the library haversine between the origin and the
point one degree of longitude east on the equator: 6371 km times one
degree in radians. -/
theorem haversine_eval_unit :
    haversine_distance (0, 0) (0, 1) = 6371 * (Real.pi / 180) := by
  have hpi := Real.pi_pos
  have h0 : (0:ℝ) < Real.pi / 360 := by linarith
  have h2 : Real.pi / 360 < Real.pi / 2 := by linarith
  have hsn : 0 ≤ Real.sin (Real.pi / 360) :=
    Real.sin_nonneg_of_nonneg_of_le_pi (le_of_lt h0) (by linarith)
  have hcp : 0 < Real.cos (Real.pi / 360) :=
    Real.cos_pos_of_mem_Ioo ⟨by linarith, h2⟩
  simp only [haversine_distance, radians]
  norm_num [Real.sin_zero, Real.cos_zero]
  rw [show Real.pi / 180 / 2 = Real.pi / 360 by ring]
  rw [Real.sqrt_mul_self hsn]
  rw [show (1:ℝ) - Real.sin (Real.pi / 360) * Real.sin (Real.pi / 360)
        = Real.cos (Real.pi / 360) * Real.cos (Real.pi / 360) by
      linear_combination - Real.sin_sq_add_cos_sq (Real.pi / 360)]
  rw [Real.sqrt_mul_self hcp.le]
  unfold atan2
  rw [if_pos hcp]
  rw [← Real.tan_eq_sin_div_cos, Real.arctan_tan (by linarith) h2]
  ring

/-- C1 counterexample: on the stream with samples at (lat 0, lng 0)
and (lat 0, lng 1), the stored distance of point 1 is the kilometres
value of `mpu.haversine_distance`, not the metres value the claim
prescribes — the two differ by a factor of 1000. -/
theorem C1_counterexample :
    ((_transform_coordinates cEx dtEx "t1" "hiking" argsEx).getD 1 dRow).distance
      ≠ spec_haversine_meters (0, 0) (0, 1) := by
  have hval : ((_transform_coordinates cEx dtEx "t1" "hiking" argsEx).getD 1 dRow).distance
      = haversine_distance (0, 0) (0, 1) := by
    rw [transform_getD cEx dtEx "t1" "hiking" argsEx 1 (by decide)]
    simp [mkRow, cEx, s0, s1]
  rw [hval, spec_haversine_meters_eq, haversine_eval_unit]
  have hpi := Real.pi_pos
  intro h
  nlinarith

/-- C1 amended: for every enriched point at index i >= 1 the distance
field equals the haversine great-circle distance in kilometres
(spherical earth, mean radius 6371 km, as `mpu.haversine_distance`
computes it) between samples i-1 and i, and the speed field equals that
distance divided by the elapsed quantity
`(samples[i].t - samples[i-1].t) / 1000` whenever it is nonzero. -/
theorem C1_amended_distance_speed :
    ∀ (c : Coordinates) (s : DateTime) (tid sp : String) (a : CliArgs) (i : Nat),
      1 ≤ i → i < c.items.length →
      ((_transform_coordinates c s tid sp a).getD i dRow).distance
        = haversine_distance
            (((c.items.getD (i - 1) dSample).lat : ℝ), ((c.items.getD (i - 1) dSample).lng : ℝ))
            (((c.items.getD i dSample).lat : ℝ), ((c.items.getD i dSample).lng : ℝ)) ∧
      ((((c.items.getD i dSample).t - (c.items.getD (i - 1) dSample).t) / 1000 : ℚ) ≠ 0 →
        ((_transform_coordinates c s tid sp a).getD i dRow).speed
          = ((_transform_coordinates c s tid sp a).getD i dRow).distance
              / (((((c.items.getD i dSample).t - (c.items.getD (i - 1) dSample).t) / 1000 : ℚ)) : ℝ)) := by
  intro c s tid sp a i h1 h2
  rw [transform_getD c s tid sp a i h2]
  have hi0 : i ≠ 0 := by omega
  rw [if_neg hi0]
  generalize c.items.getD i dSample = ri
  generalize c.items.getD (i - 1) dSample = rp
  constructor
  · simp [mkRow]
  · intro hne
    simp [mkRow, hne]

/-- Witness for the amended C1 at a concrete input. -/
theorem C1_witness : 1 ≤ 1 ∧ 1 < cEx.items.length ∧
    ((_transform_coordinates cEx dtEx "t1" "hiking" argsEx).getD 1 dRow).distance
      = haversine_distance
          (((cEx.items.getD (1 - 1) dSample).lat : ℝ), ((cEx.items.getD (1 - 1) dSample).lng : ℝ))
          (((cEx.items.getD 1 dSample).lat : ℝ), ((cEx.items.getD 1 dSample).lng : ℝ)) :=
  ⟨le_refl 1, by decide,
   (C1_amended_distance_speed cEx dtEx "t1" "hiking" argsEx 1 (le_refl 1) (by decide)).1⟩
